import Mathlib

/-!
Verification of the backend-selection and linkage-resolution logic of the
`whisper-rs-sys` build script (`src/sys/build.rs`).

The build script is embedded shallowly:

* `get_cpp_link_stdlib` mirrors the function of the same name (lines 200-210).
* `emitLinkDirectives` mirrors the link-directive emission in `main`
  (lines 10-74): the C++ runtime link, the Apple framework block, and the
  per-capability-flag link libraries and search paths.
* `resolveConfig` mirrors the cmake configuration built in `main`
  (lines 122-180, reached when the docs-build sentinel is unset): baseline
  defines, per-flag defines, the hipblas platform split, the metal ON/OFF
  switch, the debug override and the `WHISPER_`-prefixed passthrough.
* `stageSources` mirrors the existence-check-then-copy staging (lines 80-89)
  over an abstract filesystem `FS` (an existence predicate on paths), with the
  copy outcome supplied as an oracle.
* `generateBindings` mirrors the bindings-generation control flow
  (lines 91-115), with the generator outcome supplied as an oracle.

The Rust `env::var` is modelled as `Env : String → Option String`; a `.unwrap()`
on a missing variable becomes an `Except.error` (the build aborts).
`cfg!(target_os = "windows")` is the `isWindows` parameter,
`cfg!(debug_assertions)` the `debugAssertions` parameter, and the compile-time
feature set the `Features` record.  `PathBuf::join` is modelled as string
concatenation with the main separator `sep` of the platform, kept abstract.
-/

/-- Rust `str::contains` on lists of characters: `hasSub pat s` is true iff
`pat` occurs contiguously in `s`. -/
def hasSub (pat : List Char) : List Char → Bool
  | [] => pat.isEmpty
  | c :: rest => pat.isPrefixOf (c :: rest) || hasSub pat rest

/-- Rust `str::contains`: `strContains s pat` is true iff `pat` is a
contiguous substring of `s`. -/
def strContains (s pat : String) : Bool :=
  hasSub pat.data s.data

/-- Rust `str::starts_with`. -/
def strStartsWith (s pat : String) : Bool :=
  pat.data.isPrefixOf s.data

/-- The compile-time feature flags of the crate (Cargo features). -/
structure Features where
  coreml : Bool
  metal : Bool
  cuda : Bool
  hipblas : Bool
  opencl : Bool
  openblas : Bool
  force_debug : Bool
deriving DecidableEq, Repr

/-- Read-only process environment, as `env::var`: `none` models `Err(NotPresent)`. -/
def Env := String → Option String

/-- How a `cargo:rustc-link-lib` directive tags the library. `default` is a
plain `cargo:rustc-link-lib=NAME` line with no kind prefix. -/
inductive LinkKind
  | default
  | dylib
  | static
  | framework
deriving DecidableEq, Repr

/-- One `cargo:` link directive printed by the build script. -/
inductive Directive
  | lib (kind : LinkKind) (name : String)
  | search (path : String)
deriving DecidableEq, Repr

/-- Models `PathBuf::join`, with `sep` the main path separator of the platform. -/
def pathJoin (sep a b : String) : String := a ++ sep ++ b

/-- Lines 200-210 of build.rs: pick the C++ runtime library name from the
target triple, `none` meaning no runtime link at all. -/
def get_cpp_link_stdlib (target : String) : Option String :=
  if strContains target "msvc" then none
  else if strContains target "apple" || strContains target "freebsd"
      || strContains target "openbsd" then some "c++"
  else if strContains target "android" then some "c++_shared"
  else some "stdc++"

/-- Lines 11-14: the C++ runtime link directive, when there is one. -/
def cppStdlibDirs (target : String) : List Directive :=
  match get_cpp_link_stdlib target with
  | some l => [Directive.lib .dylib l]
  | none => []

/-- Lines 16-29: the Apple framework block (Accelerate always, plus the
coreml and metal framework groups when those features are enabled). -/
def appleDirs (target : String) (feat : Features) : List Directive :=
  if strContains target "apple" then
    [Directive.lib .framework "Accelerate"]
    ++ (if feat.coreml then
          [Directive.lib .framework "Foundation", Directive.lib .framework "CoreML"]
        else [])
    ++ (if feat.metal then
          [Directive.lib .framework "Foundation", Directive.lib .framework "Metal",
           Directive.lib .framework "MetalKit"]
        else [])
  else []

/-- Lines 31-32: the static CoreML integration shim library. -/
def coremlDirs (feat : Features) : List Directive :=
  if feat.coreml then [Directive.lib .static "whisper.coreml"] else []

/-- Lines 33-37: the opencl link libraries. -/
def openclDirs (feat : Features) : List Directive :=
  if feat.opencl then
    [Directive.lib .default "clblast", Directive.lib .default "OpenCL"]
  else []

/-- Lines 38-41: the openblas link library. -/
def openblasDirs (feat : Features) : List Directive :=
  if feat.openblas then [Directive.lib .default "openblas"] else []

/-- Lines 42-55: the hipblas link libraries and search path.  On Windows the
search path comes from the `HIP_PATH` environment variable, whose absence
panics (`Except.error`); elsewhere a fixed rocm directory is used. -/
def hipblasDirs (feat : Features) (isWindows : Bool) (sep : String) (env : Env) :
    Except String (List Directive) :=
  if feat.hipblas then
    let base := [Directive.lib .default "hipblas", Directive.lib .default "rocblas",
                 Directive.lib .default "amdhip64"]
    if isWindows then
      match env "HIP_PATH" with
      | some hip => Except.ok (base ++ [Directive.search (pathJoin sep hip "lib")])
      | none => Except.error "called Result::unwrap on an Err value: NotPresent"
    else
      Except.ok (base ++ [Directive.search "/opt/rocm/lib"])
  else Except.ok []

/-- Lines 56-74: the cuda link libraries and search paths.  On Windows the
search path comes from the `CUDA_PATH` environment variable, whose absence
panics; elsewhere the culibos stub is linked and four conventional
installation directories are searched. -/
def cudaDirs (feat : Features) (isWindows : Bool) (sep : String) (env : Env) :
    Except String (List Directive) :=
  if feat.cuda then
    let base := [Directive.lib .default "cublas", Directive.lib .default "cudart",
                 Directive.lib .default "cublasLt", Directive.lib .default "cuda"]
    if isWindows then
      match env "CUDA_PATH" with
      | some cp => Except.ok (base ++ [Directive.search (pathJoin sep cp "lib/x64")])
      | none => Except.error "called Result::unwrap on an Err value: NotPresent"
    else
      Except.ok (base ++ [Directive.lib .default "culibos",
        Directive.search "/usr/local/cuda/lib64",
        Directive.search "/usr/local/cuda/lib64/stubs",
        Directive.search "/opt/cuda/lib64",
        Directive.search "/opt/cuda/lib64/stubs"])
  else Except.ok []

/-- Lines 10-74 of `main`: all capability link directives in source order.
An `Except.error` models the panic of an `env::var(..).unwrap()`; the
directives printed before the panic are dropped, since the build aborts. -/
def emitLinkDirectives (target : String) (feat : Features) (isWindows : Bool)
    (sep : String) (env : Env) : Except String (List Directive) :=
  match hipblasDirs feat isWindows sep env with
  | Except.error e => Except.error e
  | Except.ok h =>
    match cudaDirs feat isWindows sep env with
    | Except.error e => Except.error e
    | Except.ok c =>
      Except.ok (cppStdlibDirs target ++ appleDirs target feat ++ coremlDirs feat
        ++ openclDirs feat ++ openblasDirs feat ++ h ++ c)

/-- Lines 124-132: the fixed baseline cmake defines (the profile, verbosity
and pic settings are not `define` calls and carry no key/value). -/
def baselineDefines : List (String × String) :=
  [("BUILD_SHARED_LIBS", "OFF"), ("WHISPER_ALL_WARNINGS", "OFF"),
   ("WHISPER_ALL_WARNINGS_3RD_PARTY", "OFF"), ("WHISPER_BUILD_TESTS", "OFF"),
   ("WHISPER_BUILD_EXAMPLES", "OFF")]

/-- Lines 134-137: the coreml cmake defines. -/
def coremlCfg (feat : Features) : List (String × String) :=
  if feat.coreml then
    [("WHISPER_COREML", "ON"), ("WHISPER_COREML_ALLOW_FALLBACK", "1")]
  else []

/-- Lines 139-141: the cuda cmake define. -/
def cudaCfg (feat : Features) : List (String × String) :=
  if feat.cuda then [("WHISPER_CUDA", "ON")] else []

/-- Line 146: `HIP_PATH/lib/cmake`, the root of the three cmake-package dirs. -/
def hipCmakeDir (sep hip : String) : String :=
  pathJoin sep (pathJoin sep hip "lib") "cmake"

/-- Line 147: the `CMAKE_PREFIX_PATH` value — the hip, hipblas and rocblas
cmake-package directories joined with the `;` path-list separator. -/
def hipCmakePathValue (sep hip : String) : String :=
  pathJoin sep (hipCmakeDir sep hip) "hip" ++ ";"
    ++ pathJoin sep (hipCmakeDir sep hip) "hipblas" ++ ";"
    ++ pathJoin sep (hipCmakeDir sep hip) "rocblas"

/-- Lines 143-152: the hipblas cmake defines.  On Windows the prefix path is
derived from `HIP_PATH` (absence panics); elsewhere both compiler identities
are substituted with the hipcc wrapper. -/
def hipblasCfg (feat : Features) (isWindows : Bool) (sep : String) (env : Env) :
    Except String (List (String × String)) :=
  if feat.hipblas then
    if isWindows then
      match env "HIP_PATH" with
      | some hip => Except.ok [("CMAKE_PREFIX_PATH", hipCmakePathValue sep hip)]
      | none => Except.error "called Result::unwrap on an Err value: NotPresent"
    else
      Except.ok [("CMAKE_C_COMPILER", "hipcc"), ("CMAKE_CXX_COMPILER", "hipcc")]
  else Except.ok []

/-- Lines 154-156: the openblas cmake define. -/
def openblasCfg (feat : Features) : List (String × String) :=
  if feat.openblas then [("WHISPER_OPENBLAS", "ON")] else []

/-- Lines 158-160: the opencl cmake define. -/
def openclCfg (feat : Features) : List (String × String) :=
  if feat.opencl then [("WHISPER_CLBLAST", "ON")] else []

/-- Lines 162-167: the metal switch — ON when the feature is enabled,
otherwise an explicit OFF entry (the native build defaults it to ON). -/
def metalCfg (feat : Features) : List (String × String) :=
  if feat.metal then [("WHISPER_METAL", "ON")] else [("WHISPER_METAL", "OFF")]

/-- Lines 169-173: the debug-build optimization override. -/
def debugCfg (debugAssertions : Bool) (feat : Features) : List (String × String) :=
  if debugAssertions || feat.force_debug then
    [("CMAKE_BUILD_TYPE", "RelWithDebInfo")]
  else []

/-- Lines 176-180: forward every `WHISPER_`-prefixed environment variable
except the bindings-generation control variable. `envVars` is `env::vars()`. -/
def passthroughCfg (envVars : List (String × String)) : List (String × String) :=
  envVars.filter fun kv =>
    strStartsWith kv.fst "WHISPER_" && kv.fst != "WHISPER_DONT_GENERATE_BINDINGS"

/-- Lines 122-180 of `main`: the full cmake configuration, in `define` order.
An `Except.error` models the panic of `env::var("HIP_PATH").unwrap()`; the
defines recorded before the panic are dropped, since the build aborts. -/
def resolveConfig (feat : Features) (isWindows debugAssertions : Bool)
    (sep : String) (env : Env) (envVars : List (String × String)) :
    Except String (List (String × String)) :=
  match hipblasCfg feat isWindows sep env with
  | Except.error e => Except.error e
  | Except.ok h =>
    Except.ok (baselineDefines ++ coremlCfg feat ++ cudaCfg feat ++ h
      ++ openblasCfg feat ++ openclCfg feat ++ metalCfg feat
      ++ debugCfg debugAssertions feat ++ passthroughCfg envVars)

/-- An abstract filesystem: which paths currently exist. -/
def FS := String → Bool

/-- Mark a path as existing (`fs::create_dir_all`, or one path produced by
the recursive copy). -/
def setExists (fs : FS) (p : String) : FS :=
  fun q => if q == p then true else fs q

/-- Outcome of one run of the staging step: `err` is the panic message when
the build aborted, `fs` the filesystem afterwards, `copies` how many times
the recursive copy was invoked. -/
structure StageOut where
  err : Option String
  fs : FS
  copies : Nat

/-- Lines 80-89 of `main`: if the staging destination `root` does not exist,
create it (`create_dir_all`, before the copy) and run the recursive copy,
which either creates `copyPaths` or fails with message `e`
(`copyResult = some e`), panicking with the error appended verbatim. -/
def stageSources (root : String) (copyPaths : List String)
    (copyResult : Option String) (fs : FS) : StageOut :=
  if fs root then ⟨none, fs, 0⟩
  else
    let fs1 := setExists fs root
    match copyResult with
    | none => ⟨none, copyPaths.foldl setExists fs1, 1⟩
    | some e =>
      ⟨some ("Failed to copy whisper sources into " ++ root ++ ": " ++ e), fs1, 1⟩

/-- Observable steps of the bindings-generation phase. -/
inductive BindAction
  | copyBundled
  | attemptGenerate
  | writeGenerated
  | warn (msg : String)
deriving DecidableEq, Repr

/-- Lines 91-115 of `main`: if the skip-generation sentinel is set, copy the
bundled `src/bindings.rs` directly; otherwise attempt generation and, on
failure, warn twice and fall back to the bundled copy.  `genResult` is the
outcome of the generator, `copyOk` and `writeOk` whether the fallback copy and
the generated-bindings write succeed (their failures panic via `expect`). -/
def generateBindings (skip : Bool) (genResult : Except String Unit)
    (copyOk writeOk : Bool) : Except String (List BindAction) :=
  if skip then
    if copyOk then Except.ok [BindAction.copyBundled]
    else Except.error "Failed to copy bindings.rs"
  else
    match genResult with
    | Except.ok _ =>
      if writeOk then Except.ok [BindAction.attemptGenerate, BindAction.writeGenerated]
      else Except.error "Could not write bindings"
    | Except.error e =>
      if copyOk then
        Except.ok [BindAction.attemptGenerate,
          BindAction.warn ("Unable to generate bindings: " ++ e),
          BindAction.warn "Using bundled bindings.rs, which may be out of date",
          BindAction.copyBundled]
      else Except.error "Unable to copy bindings.rs"

/-! ## Helper lemmas -/

lemma appleDirs_no_dylib (t : String) (feat : Features) (n : String) :
    Directive.lib .dylib n ∉ appleDirs t feat := by
  unfold appleDirs
  split_ifs <;> simp

lemma coremlDirs_no_dylib (feat : Features) (n : String) :
    Directive.lib .dylib n ∉ coremlDirs feat := by
  unfold coremlDirs
  split_ifs <;> simp

lemma openclDirs_no_dylib (feat : Features) (n : String) :
    Directive.lib .dylib n ∉ openclDirs feat := by
  unfold openclDirs
  split_ifs <;> simp

lemma openblasDirs_no_dylib (feat : Features) (n : String) :
    Directive.lib .dylib n ∉ openblasDirs feat := by
  unfold openblasDirs
  split_ifs <;> simp

lemma hipblasDirs_no_dylib (feat : Features) (w : Bool) (sep : String) (env : Env)
    (h : List Directive) (hh : hipblasDirs feat w sep env = Except.ok h) (n : String) :
    Directive.lib .dylib n ∉ h := by
  unfold hipblasDirs at hh
  split_ifs at hh
  · split at hh
    · cases hh; simp
    · cases hh
  · cases hh; simp
  · cases hh; simp

lemma cudaDirs_no_dylib (feat : Features) (w : Bool) (sep : String) (env : Env)
    (c : List Directive) (hc : cudaDirs feat w sep env = Except.ok c) (n : String) :
    Directive.lib .dylib n ∉ c := by
  unfold cudaDirs at hc
  split_ifs at hc
  · split at hc
    · cases hc; simp
    · cases hc
  · cases hc; simp
  · cases hc; simp

lemma emitLinkDirectives_ok (target : String) (feat : Features) (isWindows : Bool)
    (sep : String) (env : Env) (ds : List Directive)
    (h : emitLinkDirectives target feat isWindows sep env = Except.ok ds) :
    ∃ hl cl, hipblasDirs feat isWindows sep env = Except.ok hl ∧
      cudaDirs feat isWindows sep env = Except.ok cl ∧
      ds = cppStdlibDirs target ++ appleDirs target feat ++ coremlDirs feat
        ++ openclDirs feat ++ openblasDirs feat ++ hl ++ cl := by
  unfold emitLinkDirectives at h
  cases hh : hipblasDirs feat isWindows sep env with
  | error e => rw [hh] at h; cases h
  | ok hl =>
    rw [hh] at h
    cases hc : cudaDirs feat isWindows sep env with
    | error e => rw [hc] at h; cases h
    | ok cl =>
      rw [hc] at h
      exact ⟨hl, cl, rfl, rfl, (Except.ok.injEq _ _ ▸ h).symm⟩

lemma passthroughCfg_key (envVars : List (String × String)) (kv : String × String)
    (h : kv ∈ passthroughCfg envVars) :
    strStartsWith kv.fst "WHISPER_" = true ∧ kv ∈ envVars := by
  unfold passthroughCfg at h
  rw [List.mem_filter] at h
  refine ⟨?_, h.1⟩
  have := h.2
  simp only [Bool.and_eq_true] at this
  exact this.1

lemma whisper_key_not_cmake (k : String)
    (h : strStartsWith k "WHISPER_" = true) :
    k ≠ "CMAKE_PREFIX_PATH" ∧ k ≠ "CMAKE_C_COMPILER" ∧ k ≠ "CMAKE_CXX_COMPILER" := by
  refine ⟨?_, ?_, ?_⟩ <;> rintro rfl <;> exact absurd h (by decide)

/-- Every cmake entry other than the hipblas-contributed one has a key that
is neither the prefix-path key nor a compiler-identity key. -/
lemma cfg_component_keys (feat : Features) (dbg : Bool)
    (envVars : List (String × String)) (kv : String × String)
    (h : kv ∈ baselineDefines ∨ kv ∈ coremlCfg feat ∨ kv ∈ cudaCfg feat ∨
      kv ∈ openblasCfg feat ∨ kv ∈ openclCfg feat ∨ kv ∈ metalCfg feat ∨
      kv ∈ debugCfg dbg feat ∨ kv ∈ passthroughCfg envVars) :
    kv.fst ≠ "CMAKE_PREFIX_PATH" ∧ kv.fst ≠ "CMAKE_C_COMPILER" ∧
      kv.fst ≠ "CMAKE_CXX_COMPILER" := by
  rcases h with h | h | h | h | h | h | h | h
  · simp only [baselineDefines, List.mem_cons, List.not_mem_nil, or_false] at h
    rcases h with rfl | rfl | rfl | rfl | rfl <;> exact ⟨by decide, by decide, by decide⟩
  · unfold coremlCfg at h
    split_ifs at h <;> simp only [List.mem_cons, List.not_mem_nil, or_false] at h
    rcases h with rfl | rfl <;> exact ⟨by decide, by decide, by decide⟩
  · unfold cudaCfg at h
    split_ifs at h <;> simp only [List.mem_cons, List.not_mem_nil, or_false] at h
    rcases h with rfl
    exact ⟨by decide, by decide, by decide⟩
  · unfold openblasCfg at h
    split_ifs at h <;> simp only [List.mem_cons, List.not_mem_nil, or_false] at h
    rcases h with rfl
    exact ⟨by decide, by decide, by decide⟩
  · unfold openclCfg at h
    split_ifs at h <;> simp only [List.mem_cons, List.not_mem_nil, or_false] at h
    rcases h with rfl
    exact ⟨by decide, by decide, by decide⟩
  · unfold metalCfg at h
    split_ifs at h <;>
      simp only [List.mem_cons, List.not_mem_nil, or_false] at h <;>
      (rcases h with rfl; exact ⟨by decide, by decide, by decide⟩)
  · unfold debugCfg at h
    split_ifs at h <;> simp only [List.mem_cons, List.not_mem_nil, or_false] at h
    rcases h with rfl
    exact ⟨by decide, by decide, by decide⟩
  · exact whisper_key_not_cmake kv.fst (passthroughCfg_key envVars kv h).1

/-! ## Claims -/

/-- C4: for every target triple string the C++ runtime link-name selection
returns `none` on msvc triples (the msvc check has precedence), else `c++`
on apple/freebsd/openbsd triples, else `c++_shared` on android triples, else
`stdc++`; and for msvc triples no C++ runtime (dylib) link directive is ever
emitted. -/
theorem cpp_runtime_selection (t : String) :
    (strContains t "msvc" = true →
      get_cpp_link_stdlib t = none ∧
      ∀ (feat : Features) (isWindows : Bool) (sep : String) (env : Env)
        (ds : List Directive),
        emitLinkDirectives t feat isWindows sep env = Except.ok ds →
        ∀ n, Directive.lib .dylib n ∉ ds) ∧
    (strContains t "msvc" = false →
      ((strContains t "apple" || strContains t "freebsd"
          || strContains t "openbsd") = true →
        get_cpp_link_stdlib t = some "c++") ∧
      ((strContains t "apple" || strContains t "freebsd"
          || strContains t "openbsd") = false →
        (strContains t "android" = true → get_cpp_link_stdlib t = some "c++_shared") ∧
        (strContains t "android" = false → get_cpp_link_stdlib t = some "stdc++"))) := by
  constructor
  · intro hm
    have hstd : get_cpp_link_stdlib t = none := by
      unfold get_cpp_link_stdlib
      simp [hm]
    refine ⟨hstd, ?_⟩
    intro feat isWindows sep env ds h n
    obtain ⟨hl, cl, hh, hc, rfl⟩ := emitLinkDirectives_ok t feat isWindows sep env ds h
    intro hmem
    simp only [List.mem_append] at hmem
    rcases hmem with ((((((hx | hx) | hx) | hx) | hx) | hx) | hx)
    · unfold cppStdlibDirs at hx
      rw [hstd] at hx
      simp at hx
    · exact appleDirs_no_dylib t feat n hx
    · exact coremlDirs_no_dylib feat n hx
    · exact openclDirs_no_dylib feat n hx
    · exact openblasDirs_no_dylib feat n hx
    · exact hipblasDirs_no_dylib feat isWindows sep env hl hh n hx
    · exact cudaDirs_no_dylib feat isWindows sep env cl hc n hx
  · intro hm
    constructor
    · intro hfam
      unfold get_cpp_link_stdlib
      simp [hm, hfam]
    · intro hfam
      constructor <;> intro hand <;> unfold get_cpp_link_stdlib <;>
        simp_all

/-- Witness for C4 at the concrete msvc triple "x86_64-pc-windows-msvc". -/
theorem cpp_runtime_selection_witness :
    strContains "x86_64-pc-windows-msvc" "msvc" = true ∧
    get_cpp_link_stdlib "x86_64-pc-windows-msvc" = none ∧
    (∀ n, Directive.lib .dylib n ∉ ([] : List Directive)) := by
  refine ⟨by decide, ((cpp_runtime_selection "x86_64-pc-windows-msvc").1 (by decide)).1, ?_⟩
  exact fun n => ((cpp_runtime_selection "x86_64-pc-windows-msvc").1 (by decide)).2
    ⟨false, false, false, false, false, false, false⟩ true "x" (fun _ => none) [] rfl n

/-- C2: with hipblas enabled, resolution on a non-Windows platform sets both
compiler identities to the hipcc wrapper and never sets a prefix-path entry,
and is independent of the environment (it never reads HIP_PATH there); on
Windows it sets the prefix-path entry to the three cmake-package directories
derived from HIP_PATH joined with ";" and never sets a compiler-identity
entry, and aborts when HIP_PATH is absent. -/
theorem hipblas_platform_split (feat : Features) (hf : feat.hipblas = true)
    (debugAssertions : Bool) (sep : String) (envVars : List (String × String)) :
    (∀ env : Env, ∃ cfg,
        resolveConfig feat false debugAssertions sep env envVars = Except.ok cfg ∧
        ("CMAKE_C_COMPILER", "hipcc") ∈ cfg ∧ ("CMAKE_CXX_COMPILER", "hipcc") ∈ cfg ∧
        ∀ kv ∈ cfg, kv.fst ≠ "CMAKE_PREFIX_PATH") ∧
    (∀ env env2 : Env,
        resolveConfig feat false debugAssertions sep env envVars =
          resolveConfig feat false debugAssertions sep env2 envVars) ∧
    (∀ (env : Env) (hip : String), env "HIP_PATH" = some hip →
        ∃ cfg, resolveConfig feat true debugAssertions sep env envVars = Except.ok cfg ∧
          ("CMAKE_PREFIX_PATH", hipCmakePathValue sep hip) ∈ cfg ∧
          ∀ kv ∈ cfg, kv.fst ≠ "CMAKE_C_COMPILER" ∧ kv.fst ≠ "CMAKE_CXX_COMPILER") ∧
    (∀ env : Env, env "HIP_PATH" = none →
        ∃ e, resolveConfig feat true debugAssertions sep env envVars = Except.error e) := by
  have hnw : ∀ env : Env, hipblasCfg feat false sep env =
      Except.ok [("CMAKE_C_COMPILER", "hipcc"), ("CMAKE_CXX_COMPILER", "hipcc")] := by
    intro env
    unfold hipblasCfg
    simp [hf]
  refine ⟨?_, ?_, ?_, ?_⟩
  · intro env
    refine ⟨_, by unfold resolveConfig; rw [hnw env], ?_, ?_, ?_⟩
    · have hmem : ("CMAKE_C_COMPILER", "hipcc") ∈
          [(("CMAKE_C_COMPILER" : String), ("hipcc" : String)),
           ("CMAKE_CXX_COMPILER", "hipcc")] := by simp
      simp only [List.mem_append]
      tauto
    · have hmem : ("CMAKE_CXX_COMPILER", "hipcc") ∈
          [(("CMAKE_C_COMPILER" : String), ("hipcc" : String)),
           ("CMAKE_CXX_COMPILER", "hipcc")] := by simp
      simp only [List.mem_append]
      tauto
    · intro kv hkv
      simp only [List.mem_append] at hkv
      rcases hkv with ((((((((h | h) | h) | h) | h) | h) | h) | h) | h)
      · exact (cfg_component_keys feat debugAssertions envVars kv (Or.inl h)).1
      · exact (cfg_component_keys feat debugAssertions envVars kv (Or.inr (Or.inl h))).1
      · exact (cfg_component_keys feat debugAssertions envVars kv
          (Or.inr (Or.inr (Or.inl h)))).1
      · simp only [List.mem_cons, List.not_mem_nil, or_false] at h
        rcases h with rfl | rfl <;> decide
      · exact (cfg_component_keys feat debugAssertions envVars kv
          (Or.inr (Or.inr (Or.inr (Or.inl h))))).1
      · exact (cfg_component_keys feat debugAssertions envVars kv
          (Or.inr (Or.inr (Or.inr (Or.inr (Or.inl h)))))).1
      · exact (cfg_component_keys feat debugAssertions envVars kv
          (Or.inr (Or.inr (Or.inr (Or.inr (Or.inr (Or.inl h))))))).1
      · exact (cfg_component_keys feat debugAssertions envVars kv
          (Or.inr (Or.inr (Or.inr (Or.inr (Or.inr (Or.inr (Or.inl h)))))))).1
      · exact (cfg_component_keys feat debugAssertions envVars kv
          (Or.inr (Or.inr (Or.inr (Or.inr (Or.inr (Or.inr (Or.inr h)))))))).1
  · intro env env2
    unfold resolveConfig
    rw [hnw env, hnw env2]
  · intro env hip hhip
    have hw : hipblasCfg feat true sep env =
        Except.ok [("CMAKE_PREFIX_PATH", hipCmakePathValue sep hip)] := by
      unfold hipblasCfg
      simp [hf, hhip]
    refine ⟨_, by unfold resolveConfig; rw [hw], ?_, ?_⟩
    · have hmem : ("CMAKE_PREFIX_PATH", hipCmakePathValue sep hip) ∈
          [("CMAKE_PREFIX_PATH", hipCmakePathValue sep hip)] := by simp
      simp only [List.mem_append]
      tauto
    · intro kv hkv
      simp only [List.mem_append] at hkv
      rcases hkv with ((((((((h | h) | h) | h) | h) | h) | h) | h) | h)
      · exact (cfg_component_keys feat debugAssertions envVars kv (Or.inl h)).2
      · exact (cfg_component_keys feat debugAssertions envVars kv (Or.inr (Or.inl h))).2
      · exact (cfg_component_keys feat debugAssertions envVars kv
          (Or.inr (Or.inr (Or.inl h)))).2
      · simp only [List.mem_cons, List.not_mem_nil, or_false] at h
        rcases h with rfl
        exact ⟨show ("CMAKE_PREFIX_PATH" : String) ≠ "CMAKE_C_COMPILER" by decide,
          show ("CMAKE_PREFIX_PATH" : String) ≠ "CMAKE_CXX_COMPILER" by decide⟩
      · exact (cfg_component_keys feat debugAssertions envVars kv
          (Or.inr (Or.inr (Or.inr (Or.inl h))))).2
      · exact (cfg_component_keys feat debugAssertions envVars kv
          (Or.inr (Or.inr (Or.inr (Or.inr (Or.inl h)))))).2
      · exact (cfg_component_keys feat debugAssertions envVars kv
          (Or.inr (Or.inr (Or.inr (Or.inr (Or.inr (Or.inl h))))))).2
      · exact (cfg_component_keys feat debugAssertions envVars kv
          (Or.inr (Or.inr (Or.inr (Or.inr (Or.inr (Or.inr (Or.inl h)))))))).2
      · exact (cfg_component_keys feat debugAssertions envVars kv
          (Or.inr (Or.inr (Or.inr (Or.inr (Or.inr (Or.inr (Or.inr h)))))))).2
  · intro env hhip
    refine ⟨"called Result::unwrap on an Err value: NotPresent", ?_⟩
    have hw : hipblasCfg feat true sep env =
        Except.error "called Result::unwrap on an Err value: NotPresent" := by
      unfold hipblasCfg
      simp [hf, hhip]
    unfold resolveConfig
    rw [hw]

/-- Witness for C2: hipblas alone on Windows with HIP_PATH absent aborts. -/
theorem hipblas_platform_split_witness :
    (⟨false, false, false, true, false, false, false⟩ : Features).hipblas = true ∧
    ((fun _ => none : Env) "HIP_PATH" = none) ∧
    ∃ e, resolveConfig ⟨false, false, false, true, false, false, false⟩ true false
      "\\" (fun _ => none) [] = Except.error e :=
  ⟨rfl, rfl, (hipblas_platform_split ⟨false, false, false, true, false, false, false⟩
    rfl false "\\" []).2.2.2 (fun _ => none) rfl⟩

/-- The feature set with only cuda enabled. -/
def cudaOnly : Features := ⟨false, false, true, false, false, false, false⟩

/-- Whether a directive is a library-search-path directive. -/
def isSearchDir : Directive → Bool
  | Directive.search _ => true
  | _ => false

/-- C3: cuda enabled on the non-Windows triple "x86_64-unknown-linux-gnu"
with CUDA_PATH unset — resolution succeeds, links the culibos stub, emits
exactly the four conventional search directories, and sets the CUDA build
flag ON. -/
theorem cuda_linux_scenario (sep : String) (env : Env)
    (envVars : List (String × String)) (hCudaUnset : env "CUDA_PATH" = none) :
    ∃ ds, emitLinkDirectives "x86_64-unknown-linux-gnu" cudaOnly false sep env
        = Except.ok ds ∧
      Directive.lib .default "culibos" ∈ ds ∧
      ds.filter isSearchDir = [Directive.search "/usr/local/cuda/lib64",
        Directive.search "/usr/local/cuda/lib64/stubs",
        Directive.search "/opt/cuda/lib64",
        Directive.search "/opt/cuda/lib64/stubs"] ∧
      ∃ cfg, resolveConfig cudaOnly false false sep env envVars = Except.ok cfg ∧
        ("WHISPER_CUDA", "ON") ∈ cfg := by
  refine ⟨_, rfl, by decide, by decide, _, rfl, ?_⟩
  have hmem : ("WHISPER_CUDA", "ON") ∈ cudaCfg cudaOnly := by
    simp [cudaCfg, cudaOnly]
  simp only [List.mem_append]
  tauto

/-- Witness for C3 with the everywhere-empty environment. -/
theorem cuda_linux_scenario_witness :
    ((fun _ => none : Env) "CUDA_PATH" = none) ∧
    (∃ ds, emitLinkDirectives "x86_64-unknown-linux-gnu" cudaOnly false "/"
        (fun _ => none) = Except.ok ds ∧
      Directive.lib .default "culibos" ∈ ds ∧
      ds.filter isSearchDir = [Directive.search "/usr/local/cuda/lib64",
        Directive.search "/usr/local/cuda/lib64/stubs",
        Directive.search "/opt/cuda/lib64",
        Directive.search "/opt/cuda/lib64/stubs"] ∧
      ∃ cfg, resolveConfig cudaOnly false false "/" (fun _ => none) []
          = Except.ok cfg ∧
        ("WHISPER_CUDA", "ON") ∈ cfg) :=
  ⟨rfl, cuda_linux_scenario "/" (fun _ => none) [] rfl⟩

/-- The predicate picking out fallback-allowed cmake entries. -/
def isAllowFallbackKey (kv : String × String) : Bool :=
  decide (kv.fst = "WHISPER_COREML_ALLOW_FALLBACK")

lemma hipblasCfg_count_fallback (feat : Features) (w : Bool) (sep : String)
    (env : Env) (h : List (String × String))
    (hh : hipblasCfg feat w sep env = Except.ok h) :
    h.countP isAllowFallbackKey = 0 := by
  unfold hipblasCfg at hh
  split_ifs at hh
  · split at hh
    · cases hh
      simp only [List.countP_cons, List.countP_nil, isAllowFallbackKey]
      have hp : (decide (("CMAKE_PREFIX_PATH" : String)
          = "WHISPER_COREML_ALLOW_FALLBACK")) = false := by decide
      simp [hp]
    · cases hh
  · cases hh
    decide
  · cases hh
    decide

lemma appleDirs_no_static (t : String) (feat : Features) (n : String) :
    Directive.lib .static n ∉ appleDirs t feat := by
  unfold appleDirs
  split_ifs <;> simp

lemma openclDirs_no_static (feat : Features) (n : String) :
    Directive.lib .static n ∉ openclDirs feat := by
  unfold openclDirs
  split_ifs <;> simp

lemma openblasDirs_no_static (feat : Features) (n : String) :
    Directive.lib .static n ∉ openblasDirs feat := by
  unfold openblasDirs
  split_ifs <;> simp

lemma cppStdlibDirs_no_static (t : String) (n : String) :
    Directive.lib .static n ∉ cppStdlibDirs t := by
  unfold cppStdlibDirs
  split <;> simp

lemma hipblasDirs_no_static (feat : Features) (w : Bool) (sep : String) (env : Env)
    (h : List Directive) (hh : hipblasDirs feat w sep env = Except.ok h) (n : String) :
    Directive.lib .static n ∉ h := by
  unfold hipblasDirs at hh
  split_ifs at hh
  · split at hh
    · cases hh; simp
    · cases hh
  · cases hh; simp
  · cases hh; simp

lemma cudaDirs_no_static (feat : Features) (w : Bool) (sep : String) (env : Env)
    (c : List Directive) (hc : cudaDirs feat w sep env = Except.ok c) (n : String) :
    Directive.lib .static n ∉ c := by
  unfold cudaDirs at hc
  split_ifs at hc
  · split at hc
    · cases hc; simp
    · cases hc
  · cases hc; simp
  · cases hc; simp

/-- C6: when coreml is enabled and the environment does not itself carry a
fallback-allowed variable, resolution adds exactly one fallback-allowed
entry, with value "1", together with the CoreML ON switch; when coreml is
disabled, the static CoreML shim library directive is never emitted. -/
theorem coreml_fallback_and_shim :
    (∀ (feat : Features) (isWindows dbg : Bool) (sep : String) (env : Env)
        (envVars : List (String × String)) (cfg : List (String × String)),
      feat.coreml = true →
      (∀ kv ∈ envVars, kv.fst ≠ "WHISPER_COREML_ALLOW_FALLBACK") →
      resolveConfig feat isWindows dbg sep env envVars = Except.ok cfg →
      cfg.countP isAllowFallbackKey = 1 ∧
      ("WHISPER_COREML_ALLOW_FALLBACK", "1") ∈ cfg ∧ ("WHISPER_COREML", "ON") ∈ cfg) ∧
    (∀ (target : String) (feat : Features) (isWindows : Bool) (sep : String)
        (env : Env) (ds : List Directive),
      feat.coreml = false →
      emitLinkDirectives target feat isWindows sep env = Except.ok ds →
      Directive.lib .static "whisper.coreml" ∉ ds) := by
  constructor
  · intro feat isWindows dbg sep env envVars cfg hm henv h
    unfold resolveConfig at h
    cases hh : hipblasCfg feat isWindows sep env with
    | error e => rw [hh] at h; cases h
    | ok hl =>
      rw [hh] at h
      cases h
      refine ⟨?_, ?_, ?_⟩
      · simp only [List.countP_append]
        have h1 : baselineDefines.countP isAllowFallbackKey = 0 := by decide
        have h2 : (coremlCfg feat).countP isAllowFallbackKey = 1 := by
          simp only [coremlCfg, hm, if_true]
          decide
        have h3 : (cudaCfg feat).countP isAllowFallbackKey = 0 := by
          unfold cudaCfg
          split_ifs <;> decide
        have h4 : hl.countP isAllowFallbackKey = 0 :=
          hipblasCfg_count_fallback feat isWindows sep env hl hh
        have h5 : (openblasCfg feat).countP isAllowFallbackKey = 0 := by
          unfold openblasCfg
          split_ifs <;> decide
        have h6 : (openclCfg feat).countP isAllowFallbackKey = 0 := by
          unfold openclCfg
          split_ifs <;> decide
        have h7 : (metalCfg feat).countP isAllowFallbackKey = 0 := by
          unfold metalCfg
          split_ifs <;> decide
        have h8 : (debugCfg dbg feat).countP isAllowFallbackKey = 0 := by
          unfold debugCfg
          split_ifs <;> decide
        have h9 : (passthroughCfg envVars).countP isAllowFallbackKey = 0 := by
          rw [List.countP_eq_zero]
          intro kv hkv
          have := passthroughCfg_key envVars kv hkv
          simp only [isAllowFallbackKey, decide_eq_true_eq]
          exact henv kv this.2
        rw [h1, h2, h3, h4, h5, h6, h7, h8, h9]
      · have hmem : ("WHISPER_COREML_ALLOW_FALLBACK", "1") ∈ coremlCfg feat := by
          simp [coremlCfg, hm]
        simp only [List.mem_append]
        tauto
      · have hmem : ("WHISPER_COREML", "ON") ∈ coremlCfg feat := by
          simp [coremlCfg, hm]
        simp only [List.mem_append]
        tauto
  · intro target feat isWindows sep env ds hm h
    obtain ⟨hl, cl, hh, hc, rfl⟩ := emitLinkDirectives_ok target feat isWindows sep env ds h
    intro hmem
    simp only [List.mem_append] at hmem
    rcases hmem with ((((((hx | hx) | hx) | hx) | hx) | hx) | hx)
    · exact cppStdlibDirs_no_static target _ hx
    · exact appleDirs_no_static target feat _ hx
    · unfold coremlDirs at hx
      rw [hm] at hx
      simp at hx
    · exact openclDirs_no_static feat _ hx
    · exact openblasDirs_no_static feat _ hx
    · exact hipblasDirs_no_static feat isWindows sep env hl hh _ hx
    · exact cudaDirs_no_static feat isWindows sep env cl hc _ hx

/-- Witness for C6: coreml alone on a non-Windows platform with an empty
environment — exactly one fallback-allowed entry — and, with coreml
disabled, no shim directive among the emitted link directives. -/
theorem coreml_fallback_and_shim_witness :
    ((⟨true, false, false, false, false, false, false⟩ : Features).coreml = true ∧
      (baselineDefines
        ++ [("WHISPER_COREML", "ON"), ("WHISPER_COREML_ALLOW_FALLBACK", "1")]
        ++ [] ++ [] ++ [] ++ [] ++ [("WHISPER_METAL", "OFF")] ++ [] ++ []
        : List (String × String)).countP isAllowFallbackKey = 1) ∧
    ((⟨false, false, false, false, false, false, false⟩ : Features).coreml = false ∧
      Directive.lib .static "whisper.coreml" ∉
        ([Directive.lib .dylib "stdc++"] : List Directive)) :=
  ⟨⟨rfl, ((coreml_fallback_and_shim.1 ⟨true, false, false, false, false, false, false⟩
      false false "/" (fun _ => none) [] _ rfl (by simp) rfl)).1⟩,
   ⟨rfl, coreml_fallback_and_shim.2 "x86_64-unknown-linux-gnu"
      ⟨false, false, false, false, false, false, false⟩ false "/" (fun _ => none)
      ([Directive.lib .dylib "stdc++"] ++ [] ++ [] ++ [] ++ [] ++ [] ++ []) rfl rfl⟩⟩

/-- The predicate picking out the Foundation framework link directive. -/
def isFoundationFramework (d : Directive) : Bool :=
  decide (d = Directive.lib .framework "Foundation")

lemma cppStdlibDirs_count_foundation (t : String) :
    (cppStdlibDirs t).countP isFoundationFramework = 0 := by
  unfold cppStdlibDirs
  split <;> simp [isFoundationFramework]

lemma appleDirs_count_foundation (t : String) (feat : Features)
    (ha : strContains t "apple" = true) (hc : feat.coreml = true)
    (hm : feat.metal = true) :
    (appleDirs t feat).countP isFoundationFramework = 2 := by
  simp only [appleDirs, ha, hc, hm, if_true]
  decide

lemma hipblasDirs_count_foundation (feat : Features) (w : Bool) (sep : String)
    (env : Env) (h : List Directive)
    (hh : hipblasDirs feat w sep env = Except.ok h) :
    h.countP isFoundationFramework = 0 := by
  unfold hipblasDirs at hh
  split_ifs at hh
  · split at hh
    · cases hh
      simp [isFoundationFramework]
    · cases hh
  · cases hh
    decide
  · cases hh
    decide

lemma cudaDirs_count_foundation (feat : Features) (w : Bool) (sep : String)
    (env : Env) (c : List Directive)
    (hc : cudaDirs feat w sep env = Except.ok c) :
    c.countP isFoundationFramework = 0 := by
  unfold cudaDirs at hc
  split_ifs at hc
  · split at hc
    · cases hc
      simp [isFoundationFramework]
    · cases hc
  · cases hc
    decide
  · cases hc
    decide

/-- C10: on an Apple target with both coreml and metal enabled, the emitted
link directives contain the Foundation framework directive exactly twice —
once from the coreml rule and once from the metal rule, with no
deduplication. -/
theorem foundation_linked_twice (target : String) (feat : Features)
    (isWindows : Bool) (sep : String) (env : Env) (ds : List Directive)
    (ha : strContains target "apple" = true) (hc : feat.coreml = true)
    (hm : feat.metal = true)
    (h : emitLinkDirectives target feat isWindows sep env = Except.ok ds) :
    ds.countP isFoundationFramework = 2 := by
  obtain ⟨hl, cl, hh, hcu, rfl⟩ := emitLinkDirectives_ok target feat isWindows sep env ds h
  simp only [List.countP_append]
  rw [cppStdlibDirs_count_foundation target,
    appleDirs_count_foundation target feat ha hc hm,
    hipblasDirs_count_foundation feat isWindows sep env hl hh,
    cudaDirs_count_foundation feat isWindows sep env cl hcu]
  have h1 : (coremlDirs feat).countP isFoundationFramework = 0 := by
    unfold coremlDirs
    split_ifs <;> decide
  have h2 : (openclDirs feat).countP isFoundationFramework = 0 := by
    unfold openclDirs
    split_ifs <;> decide
  have h3 : (openblasDirs feat).countP isFoundationFramework = 0 := by
    unfold openblasDirs
    split_ifs <;> decide
  rw [h1, h2, h3]

/-- Witness for C10 at "aarch64-apple-darwin" with coreml and metal on. -/
theorem foundation_linked_twice_witness :
    strContains "aarch64-apple-darwin" "apple" = true ∧
    (⟨true, true, false, false, false, false, false⟩ : Features).coreml = true ∧
    (⟨true, true, false, false, false, false, false⟩ : Features).metal = true ∧
    ([Directive.lib .dylib "c++", Directive.lib .framework "Accelerate",
      Directive.lib .framework "Foundation", Directive.lib .framework "CoreML",
      Directive.lib .framework "Foundation", Directive.lib .framework "Metal",
      Directive.lib .framework "MetalKit",
      Directive.lib .static "whisper.coreml"] : List Directive).countP
        isFoundationFramework = 2 :=
  ⟨by decide, rfl, rfl,
    foundation_linked_twice "aarch64-apple-darwin"
      ⟨true, true, false, false, false, false, false⟩ false "/" (fun _ => none) _
      (by decide) rfl rfl rfl⟩

lemma setExists_self (fs : FS) (p : String) : setExists fs p p = true := by
  simp [setExists]

lemma foldl_setExists_preserve (l : List String) (fs : FS) (p : String)
    (h : fs p = true) : (l.foldl setExists fs) p = true := by
  induction l generalizing fs with
  | nil => exact h
  | cons q t ih =>
    apply ih
    unfold setExists
    split
    · rfl
    · exact h

/-- C7: staging is idempotent — if the destination already exists the copy is
not performed and the filesystem is unchanged; and after any successful run,
a second run against the same output directory is a no-op (zero further
copies), the first run having copied at most once. -/
theorem staging_idempotent (root : String) (copyPaths : List String)
    (copyResult copyResult2 : Option String) (fs : FS) :
    (fs root = true → stageSources root copyPaths copyResult fs = ⟨none, fs, 0⟩) ∧
    ((stageSources root copyPaths copyResult fs).err = none →
      stageSources root copyPaths copyResult2
          (stageSources root copyPaths copyResult fs).fs
        = ⟨none, (stageSources root copyPaths copyResult fs).fs, 0⟩ ∧
      (stageSources root copyPaths copyResult fs).copies ≤ 1) := by
  constructor
  · intro h
    simp [stageSources, h]
  · intro herr
    by_cases h : fs root = true
    · simp [stageSources, h]
    · have h2 : fs root = false := by
        cases hfs : fs root
        · rfl
        · exact absurd hfs h
      cases hcr : copyResult with
      | none =>
        have hroot : (copyPaths.foldl setExists (setExists fs root)) root = true :=
          foldl_setExists_preserve copyPaths (setExists fs root) root
            (setExists_self fs root)
        constructor
        · simp [stageSources, h2, hcr, hroot]
        · simp [stageSources, h2, hcr]
      | some e =>
        exfalso
        simp [stageSources, h2, hcr] at herr

/-- Witness for C7: a first run from an empty filesystem with a successful
copy, then a second run that performs no copy. -/
theorem staging_idempotent_witness :
    ((stageSources "out/whisper.cpp/" [] none (fun _ => false)).err = none) ∧
    (stageSources "out/whisper.cpp/" [] none
        (stageSources "out/whisper.cpp/" [] none (fun _ => false)).fs
      = ⟨none, (stageSources "out/whisper.cpp/" [] none (fun _ => false)).fs, 0⟩ ∧
      (stageSources "out/whisper.cpp/" [] none (fun _ => false)).copies ≤ 1) :=
  ⟨rfl, (staging_idempotent "out/whisper.cpp/" [] none none (fun _ => false)).2 rfl⟩

/-- C8 counterexample: starting from a filesystem where nothing exists, with
a failing copy, the build does abort — but the staging destination directory
IS left existing afterwards (it is created by `create_dir_all` before the
copy), contradicting the claim that it is created only after a successful
copy. -/
theorem staging_not_atomic_counterexample :
    (stageSources "out/whisper.cpp/" [] (some "copy failed")
        (fun _ => false)).err ≠ none ∧
    (stageSources "out/whisper.cpp/" [] (some "copy failed")
        (fun _ => false)).fs "out/whisper.cpp/" = true := by
  constructor
  · simp [stageSources]
  · have := setExists_self (fun _ => false) "out/whisper.cpp/"
    simpa [stageSources] using this

/-- C8 (amended): when the copy fails the build aborts with the underlying
error surfaced verbatim; but the destination directory is created before the
copy is attempted, so after the failed run it exists, and the
existence check of any later run reports the copy as done and skips it. -/
theorem staging_failure_leaves_destination (root : String)
    (copyPaths : List String) (e : String) (fs : FS) (h : fs root = false) :
    (stageSources root copyPaths (some e) fs).err =
      some ("Failed to copy whisper sources into " ++ root ++ ": " ++ e) ∧
    (stageSources root copyPaths (some e) fs).fs root = true ∧
    ∀ (cp2 : List String) (cr2 : Option String),
      stageSources root cp2 cr2 (stageSources root copyPaths (some e) fs).fs =
        ⟨none, (stageSources root copyPaths (some e) fs).fs, 0⟩ := by
  have hstage : stageSources root copyPaths (some e) fs =
      ⟨some ("Failed to copy whisper sources into " ++ root ++ ": " ++ e),
       setExists fs root, 1⟩ := by
    simp [stageSources, h]
  rw [hstage]
  refine ⟨rfl, setExists_self fs root, ?_⟩
  intro cp2 cr2
  simp [stageSources, setExists_self fs root]

/-- Witness for the amended C8 on a concrete empty filesystem. -/
theorem staging_failure_leaves_destination_witness :
    ((fun _ => false : FS) "out/whisper.cpp/" = false) ∧
    ((stageSources "out/whisper.cpp/" [] (some "disk full") (fun _ => false)).err =
      some ("Failed to copy whisper sources into " ++ "out/whisper.cpp/"
        ++ ": " ++ "disk full") ∧
    (stageSources "out/whisper.cpp/" [] (some "disk full")
      (fun _ => false)).fs "out/whisper.cpp/" = true ∧
    ∀ (cp2 : List String) (cr2 : Option String),
      stageSources "out/whisper.cpp/" cp2 cr2
          (stageSources "out/whisper.cpp/" [] (some "disk full")
            (fun _ => false)).fs =
        ⟨none, (stageSources "out/whisper.cpp/" [] (some "disk full")
          (fun _ => false)).fs, 0⟩) :=
  ⟨rfl, staging_failure_leaves_destination "out/whisper.cpp/" [] "disk full"
    (fun _ => false) rfl⟩

/-- C9: bindings generation degrades rather than fails — with the
skip-generation sentinel set the bundled copy is performed directly with no
generation attempt, for every generator outcome; and on every generation
failure (with the fallback copy itself succeeding) the run still succeeds,
performing the bundled copy after emitting the two warnings. -/
theorem bindings_degrade :
    (∀ (genResult : Except String Unit) (writeOk : Bool),
      generateBindings true genResult true writeOk =
        Except.ok [BindAction.copyBundled]) ∧
    (∀ (e : String) (writeOk : Bool),
      ∃ tr, generateBindings false (Except.error e) true writeOk = Except.ok tr ∧
        BindAction.copyBundled ∈ tr ∧
        BindAction.warn ("Unable to generate bindings: " ++ e) ∈ tr ∧
        BindAction.warn "Using bundled bindings.rs, which may be out of date" ∈ tr) := by
  constructor
  · intro genResult writeOk
    rfl
  · intro e writeOk
    exact ⟨_, rfl, by simp, by simp, by simp⟩

/-- C5 counterexample: the triple string "x86_64-apple-msvc" is classified
as an Apple target (it contains "apple"), yet because it also contains
"msvc" the C++ runtime link name resolves to `none`, not `"c++"`: the msvc
check has precedence over the Apple check, contradicting "including ABI kind
msvc". -/
theorem apple_msvc_counterexample :
    strContains "x86_64-apple-msvc" "apple" = true ∧
    get_cpp_link_stdlib "x86_64-apple-msvc" ≠ some "c++" := by
  exact ⟨by decide, by decide⟩

/-- C5 (amended): for every target triple classified as Apple/macOS (string
contains "apple") whose string does not also contain "msvc", the C++ runtime
link name resolves to "c++", regardless of the rest of the triple. -/
theorem apple_cpp_runtime (t : String)
    (ha : strContains t "apple" = true) (hm : strContains t "msvc" = false) :
    get_cpp_link_stdlib t = some "c++" := by
  unfold get_cpp_link_stdlib
  simp [ha, hm]

/-- C1: whenever configuration resolution succeeds, an enabled metal flag
yields the ("WHISPER_METAL","ON") entry, and a disabled metal flag always
yields the explicit ("WHISPER_METAL","OFF") entry — for every platform,
debug setting, environment and combination of the other flags the OFF entry
is present, never merely omitted. -/
theorem metal_switch_explicit (feat : Features) (isWindows debugAssertions : Bool)
    (sep : String) (env : Env) (envVars : List (String × String))
    (cfg : List (String × String))
    (h : resolveConfig feat isWindows debugAssertions sep env envVars = Except.ok cfg) :
    (feat.metal = true → ("WHISPER_METAL", "ON") ∈ cfg) ∧
    (feat.metal = false → ("WHISPER_METAL", "OFF") ∈ cfg) := by
  unfold resolveConfig at h
  cases hh : hipblasCfg feat isWindows sep env with
  | error e => rw [hh] at h; cases h
  | ok hl =>
    rw [hh] at h
    cases h
    constructor <;> intro hm
    · have hmem : ("WHISPER_METAL", "ON") ∈ metalCfg feat := by simp [metalCfg, hm]
      simp only [List.mem_append]
      tauto
    · have hmem : ("WHISPER_METAL", "OFF") ∈ metalCfg feat := by simp [metalCfg, hm]
      simp only [List.mem_append]
      tauto

/-- Witness for C1: with every flag disabled, resolution on a linux-like
platform succeeds and the explicit OFF entry is present. -/
theorem metal_switch_explicit_witness :
    (⟨false, false, false, false, false, false, false⟩ : Features).metal = false ∧
    ("WHISPER_METAL", "OFF") ∈
      (baselineDefines ++ [] ++ [] ++ [] ++ [] ++ [] ++ [("WHISPER_METAL", "OFF")]
        ++ [] ++ [] : List (String × String)) :=
  ⟨rfl, (metal_switch_explicit ⟨false, false, false, false, false, false, false⟩
    false false "/" (fun _ => none) [] _ rfl).2 rfl⟩

/-- Witness for the amended C5 at "aarch64-apple-darwin". -/
theorem apple_cpp_runtime_witness :
    strContains "aarch64-apple-darwin" "apple" = true ∧
    strContains "aarch64-apple-darwin" "msvc" = false ∧
    get_cpp_link_stdlib "aarch64-apple-darwin" = some "c++" :=
  ⟨by decide, by decide, apple_cpp_runtime "aarch64-apple-darwin" (by decide) (by decide)⟩

